import Mathlib

/-!
Shallow embedding of the highlight-it library (src/index.js, src/cache.js,
src/polyfills.js) for checking its natural-language specification.

Strings are modelled with Lean `String` / `List Char`; JS truthiness of
strings is modelled explicitly (`""` is falsy); `parseInt` returning `NaN`
is modelled as `Option Int` with `none` standing for `NaN`; the external
highlight.js engine and the SHA-256 digest primitive are parameters.
-/

namespace HighlightIt

/-- JS truthiness for an optional string attribute: present and non-empty. -/
def jsTruthy : Option String → Option String
  | some s => if s = "" then none else some s
  | none => none

/-- `a || b`: first truthy of two optional strings. -/
def jsOr (a b : Option String) : Option String :=
  match jsTruthy a with
  | some v => some v
  | none => jsTruthy b

/-- JS `String.prototype.trim`: strip whitespace from both ends (the JS and
Lean whitespace classes agree on the characters that occur here). -/
def jsTrim (s : String) : String :=
  String.mk (((s.data.dropWhile Char.isWhitespace).reverse.dropWhile
    Char.isWhitespace).reverse)

/-- Character-level splitting on `'\n'`; the empty string yields one (empty)
segment, exactly as JS `split`. -/
def splitLines : List Char → List (List Char)
  | [] => [[]]
  | c :: cs =>
      let r := splitLines cs
      if c = '\n' then [] :: r
      else (c :: r.headI) :: r.tail

/-- JS `code.split('\n')`. -/
def jsSplitNewline (s : String) : List String :=
  (splitLines s.data).map String.mk

/-! ## Lookup tables (src/cache.js) -/

/-- `cache.popularLanguages` from src/cache.js (insertion order of the `Set`). -/
def popularLanguages : List String :=
  ["javascript", "typescript", "python", "java", "html", "css", "scss", "php",
   "ruby", "go", "rust", "c", "cpp", "csharp", "bash", "json", "markdown",
   "yaml", "xml"]

/-- `cache.extensionMap` from src/cache.js, as an association list in the
`Map`'s insertion order (JS `Map` iteration follows insertion order). -/
def extensionMap : List (String × String) :=
  [("js", "javascript"), ("ts", "typescript"), ("jsx", "javascript"),
   ("tsx", "typescript"), ("html", "html"), ("css", "css"), ("scss", "scss"),
   ("sass", "scss"), ("py", "python"), ("rb", "ruby"), ("java", "java"),
   ("c", "c"), ("cpp", "cpp"), ("cs", "csharp"), ("php", "php"), ("go", "go"),
   ("rust", "rust"), ("rs", "rust"), ("swift", "swift"), ("md", "markdown"),
   ("json", "json"), ("xml", "xml"), ("yaml", "yaml"), ("yml", "yaml"),
   ("sh", "bash"), ("bash", "bash")]

/-- `Map.prototype.get`: value of the first (unique) matching key, or `none`. -/
def mapGet (m : List (String × String)) (k : String) : Option String :=
  (m.find? (fun p => p.1 = k)).map Prod.snd

/-- `cache.htmlEscapes` from src/cache.js. -/
def htmlEscapes : List (Char × String) :=
  [('&', "&amp;"), ('<', "&lt;"), ('>', "&gt;"), ('"', "&quot;"),
   ('\'', "&#39;"), ('/', "&#x2F;"), ('`', "&#x60;"), ('=', "&#x3D;")]

/-- `HighlightIt.escapeHtml` (src/index.js:1416): replace each special
character by its entity from `cache.htmlEscapes`. -/
def escapeHtml (html : String) : String :=
  String.join (html.data.map (fun c =>
    match (htmlEscapes.find? (fun p => p.1 = c)).map Prod.snd with
    | some e => e
    | none => String.mk [c]))

/-! ## Filename / extension functions (src/index.js) -/

/-- The characters of a string after its last `'.'` (the whole string when it
has no `'.'`): JS `filename.split('.').pop()`. -/
def splitPop (s : List Char) : List Char :=
  (s.reverse.takeWhile (fun c => c ≠ '.')).reverse

/-- Lowercasing as JS `toLowerCase` on ASCII, character by character. -/
def lowerChars (s : List Char) : List Char := s.map Char.toLower

/-- JS `toLowerCase` on strings. -/
def jsToLower (s : String) : String := String.mk (lowerChars s.data)

/-- `HighlightIt.getLanguageFromFilename` (src/index.js:1381): language for the
lowercased extension after the last dot, or `none`. -/
def getLanguageFromFilename (filename : String) : Option String :=
  mapGet extensionMap (String.mk (lowerChars (splitPop filename.data)))

/-- `HighlightIt.getLanguageFileExtension` (src/index.js:2183): `"txt"` for a
falsy language; otherwise the first extension whose mapped language equals the
lowercased input; otherwise the lowercased input itself. -/
def getLanguageFileExtension (language : String) : String :=
  if language = "" then "txt"
  else
    match extensionMap.find? (fun p => p.2 = jsToLower language) with
    | some p => p.1
    | none => jsToLower language

/-- Filename derivation in `HighlightIt.createDownloadButton`
(src/index.js:1243-1248): the container's `data-filename` when truthy,
otherwise `"code."` + the extension for the (truthy) language, `"txt"` when
the language is absent. -/
def deriveDownloadFilename (datasetFilename : Option String)
    (language : Option String) : String :=
  match jsTruthy datasetFilename with
  | some f => f
  | none =>
      let extension :=
        match jsTruthy language with
        | some l => getLanguageFileExtension l
        | none => "txt"
      "code." ++ extension

/-! ## Highlighting adapter (src/index.js:1392-1408) -/

/-- Result shape of a highlight.js call: marked-up `value` plus the detected
`language` (`none` / `some ""` are both falsy in the JS source). -/
structure HlResult where
  value : String
  language : Option String
deriving Repr, DecidableEq

/-- The external highlight.js engine, as a black box.  `highlightAuto code
subset` models `hljs.highlightAuto(code, subset?)`, `highlight code language`
models `hljs.highlight(code, {language})`; `Except.error` models the engine
throwing (unsupported language, or highlight.js not loaded). -/
structure Engine where
  highlightAuto : String → Option (List String) → Except String HlResult
  highlight : String → String → Except String HlResult

/-- JS truthiness of `result.language`: present and non-empty. -/
def langTruthy : Option String → Bool
  | some l => l ≠ ""
  | none => false

/-- `HighlightIt.autoDetectLanguage` (src/index.js:1392-1408): short input
short-circuits to escaped plaintext; otherwise detection restricted to
`cache.popularLanguages`, retried unrestricted when that yields no language;
an engine exception yields escaped text with language `"unknown"`. -/
def autoDetectLanguage (engine : Engine) (code : String) : HlResult :=
  if code = "" ∨ (jsTrim code).length < 3 then
    { value := escapeHtml code, language := some "plaintext" }
  else
    match engine.highlightAuto code (some popularLanguages) with
    | .error _ => { value := escapeHtml code, language := some "unknown" }
    | .ok result =>
        if langTruthy result.language then result
        else
          match engine.highlightAuto code none with
          | .error _ => { value := escapeHtml code, language := some "unknown" }
          | .ok result2 => result2

/-! ## Theme and line-start configuration (src/index.js:553-565, 911-914, 1441-1444) -/

/-- `HighlightIt.applyGlobalTheme` (src/index.js:553-565): the theme class the
document root ends up with — the given theme when it is one of
`light`/`dark`/`auto`, else `auto`. -/
def applyGlobalTheme (theme : String) : String :=
  if theme = "light" ∨ theme = "dark" ∨ theme = "auto" then theme else "auto"

/-- JS `parseInt(s, 10)`: skip leading whitespace, optional sign, then the
longest digit prefix; no digits means `NaN`, modelled as `none`. -/
def jsParseInt (s : String) : Option Int :=
  let cs := s.data.dropWhile Char.isWhitespace
  let (sign, rest) :=
    match cs with
    | '-' :: r => ((-1 : Int), r)
    | '+' :: r => ((1 : Int), r)
    | r => ((1 : Int), r)
  let digits := rest.takeWhile Char.isDigit
  if digits = [] then none
  else some (sign * (digits.foldl (fun a c => a * 10 + (c.toNat - '0'.toNat)) 0 : Nat))

/-- `parseInt(element.dataset.lineStart || preElement.dataset.lineStart || 1, 10)`
(src/index.js:911-914 and 1441-1444): the first truthy attribute parsed with
`parseInt` (possibly `NaN` = `none`), defaulting to `1` when both are absent
or empty. -/
def resolveLineStart (elementLineStart preLineStart : Option String) : Option Int :=
  match jsOr elementLineStart preLineStart with
  | some v => jsParseInt v
  | none => some 1

/-! ## Hash functions (src/index.js:94-138, src/polyfills.js:161-173) -/

/-- The `BASE62_CHARS` constant (src/index.js:12). -/
def BASE62_CHARS : List Char :=
  "0123456789abcdefghijklmnopqrstuvwxyzABCDEFGHIJKLMNOPQRSTUVWXYZ".data

/-- The base-62 digit-extraction loop of `HighlightIt.generateHash`
(src/index.js:123-131): while the value is positive or fewer than 12 digits
have been produced, prepend the digit for `value % 62`, divide by 62, and when
the value reaches zero while still short of 12 digits additionally prepend the
base-62 zero digit. -/
def base62Loop (value : Nat) (acc : List Char) : List Char :=
  if h : 0 < value ∨ acc.length < 12 then
    base62Loop (value / 62)
      (if value / 62 = 0 ∧ acc.length + 1 < 12 then
        '0' :: BASE62_CHARS.getD (value % 62) '0' :: acc
      else BASE62_CHARS.getD (value % 62) '0' :: acc)
  else acc
termination_by value + (12 - acc.length)
decreasing_by
  have hd : value / 62 ≤ value := Nat.div_le_self _ _
  have hd2 : 0 < value → value / 62 < value := fun hv => Nat.div_lt_self hv (by norm_num)
  split
  · rename_i hz
    simp only [List.length_cons]
    omega
  · simp only [List.length_cons]
    omega

/-- JS `str.slice(-12)`: the last 12 characters (the whole string when
shorter). -/
def sliceLast12 (l : List Char) : List Char := l.drop (l.length - 12)

/-- JS `str.padStart(12, '0')`. -/
def padStart12 (l : List Char) : List Char := List.replicate (12 - l.length) '0' ++ l

/-- The digest-to-base62 reduction of `HighlightIt.generateHash`
(src/index.js:110-133): fold the digest bytes into one big integer with
shift-or, run the base-62 loop, then `slice(-12).padStart(12, '0')`. -/
def base62OfDigest (hashArray : List Nat) : String :=
  let value := hashArray.foldl (fun a b => (a <<< 8) ||| b) 0
  String.mk (padStart12 (sliceLast12 (base62Loop value [])))

/-- Wrap-around to a signed 32-bit integer, as JS `ToInt32`. -/
def toInt32 (n : Int) : Int := (n + 2 ^ 31) % 2 ^ 32 - 2 ^ 31

/-- The accumulation loop of `polyfills.simpleHash` (src/polyfills.js:164-169):
`hash = (hash << 5) - hash + charCode; hash = hash & hash` (the and-with-self
coerces to a signed 32-bit integer).  Characters enter as their code points
(the source uses UTF-16 code units; they agree on the basic plane). -/
def simpleHashLoop (hash : Int) : List Char → Int
  | [] => hash
  | c :: cs => simpleHashLoop (toInt32 (toInt32 (hash * 32) - hash + c.toNat)) cs

/-- Lowercase hexadecimal digits used by JS `Number.prototype.toString(16)`. -/
def hexDigits : List Char := "0123456789abcdef".data

/-- JS `n.toString(16)` for a non-negative integer, most significant digit
first (`0` renders as `"0"`). -/
def natToHex (n : Nat) : List Char :=
  if h : n < 16 then [hexDigits.getD n '0']
  else natToHex (n / 16) ++ [hexDigits.getD (n % 16) '0']
termination_by n
decreasing_by exact Nat.div_lt_self (by omega) (by norm_num)

/-- `polyfills.simpleHash` (src/polyfills.js:161-173): the deterministic
non-cryptographic fallback hash — the fixed string for falsy input, otherwise
the string "h-" followed by the first 12 characters of the zero-padded hex
rendering of the absolute accumulated value. -/
def simpleHash (str : String) : String :=
  if str = "" then "h-000000000000"
  else
    let hash := simpleHashLoop 0 str.data
    let hashStr := padStart12 (natToHex hash.natAbs)
    "h-" ++ String.mk (hashStr.take 12)

/-- `HighlightIt.generateHash` (src/index.js:94-138): falls back to
`polyfills.simpleHash` when `crypto.subtle`, a `TextEncoder`, or native
`BigInt` is unavailable (in the source the `BigInt` check is
`typeof BigInt === 'undefined' && polyfills.BigIntPolyfill`, and the polyfill
is non-null exactly when native `BigInt` is undefined); otherwise reduces the
SHA-256 digest of the UTF-8 encoding — modelled as the black-box `digest`
parameter — to base 62.  The `catch` branch (digest failure) also returns
`simpleHash`; the model's digest is total. -/
def generateHash (cryptoAvailable textEncoderAvailable bigIntAvailable : Bool)
    (digest : String → List Nat) (input : String) : String :=
  if ¬cryptoAvailable then simpleHash input
  else if ¬textEncoderAvailable then simpleHash input
  else if ¬bigIntAvailable then simpleHash input
  else base62OfDigest (digest input)

/-! ## Line-number gutter (src/index.js:960-1077, 1426-1508, 1549-1695)

A gutter entry models one `.highlightit-line-number-container` DOM node:
`nodeId` is the node's identity, `label` the text of its
`.highlightit-line-number` span (`none` models `NaN`), and the share fields
model the optional `.highlightit-line-share` button (`shareBlockId` its
`data-block-id`, `shareLine` its `data-line-number`, `listenerGen` the
identity of its bound click listener, bumped on every rebind). -/

structure LineEntry where
  nodeId : Nat
  label : Option Int
  shareBlockId : Option String
  shareLine : Option Int
  listenerGen : Nat
deriving Repr, DecidableEq

/-- `startLine + i` where `startLine` may be `NaN` (modelled `none`). -/
def jsAdd (a : Option Int) (i : Nat) : Option Int := a.map (· + (i : Int))

/-- Construction of one fresh line entry (src/index.js:1003-1028 and
1474-1501): a container with a numbered span, plus a share button bound to
`blockId` when sharing is on and `blockId` is truthy. -/
def mkLineEntry (nodeId : Nat) (lineNumber : Option Int) (withShare : Bool)
    (blockId : String) : LineEntry :=
  if withShare ∧ blockId ≠ "" then
    { nodeId := nodeId, label := lineNumber, shareBlockId := some blockId,
      shareLine := lineNumber, listenerGen := 0 }
  else
    { nodeId := nodeId, label := lineNumber, shareBlockId := none,
      shareLine := none, listenerGen := 0 }

/-- Renumbering/rebinding of one existing entry (src/index.js:973-994 and
1046-1075): the span's text becomes `startLine + i`; when sharing is on with a
truthy `blockId` and the entry has a share button, its `data-line-number` is
refreshed, and only when its cached `data-block-id` differs is the button
rebound to a fresh click listener. -/
def renumberEntry (startLine : Option Int) (withShare : Bool) (blockId : String)
    (i : Nat) (e : LineEntry) : LineEntry :=
  let ln := jsAdd startLine i
  let e1 := { e with label := ln }
  if withShare ∧ blockId ≠ "" ∧ e.shareBlockId.isSome then
    if e.shareBlockId = some blockId then
      { e1 with shareLine := ln }
    else
      { e1 with
          shareLine := ln
          shareBlockId := some blockId
          listenerGen := e.listenerGen + 1 }
  else e1

/-- The renumber/rebind loop `for (let i = 0; i < bound; i++)` over the gutter
entries (src/index.js:973-994 and 1046-1075): entry `i` is updated with
`renumberEntry` while `i < bound`; entries past the bound are untouched. -/
def renumberLoop (startLine : Option Int) (withShare : Bool) (blockId : String)
    (bound : Nat) : Nat → List LineEntry → List LineEntry
  | _, [] => []
  | i, e :: es =>
      (if i < bound then renumberEntry startLine withShare blockId i e else e) ::
        renumberLoop startLine withShare blockId bound (i + 1) es

/-- `HighlightIt.updateLineNumbersForLiveUpdates` (src/index.js:960-1077).
Equal counts: renumber/rebind the first `newLineCount` entries in place.
Growth: append exactly the delta of fresh entries (node ids drawn from the
`fresh` counter).  Shrink: remove the entries at indices
`[newLineCount, oldLineCount)`, then renumber the remaining first
`newLineCount`.  Returns the updated gutter and the new fresh-node counter. -/
def updateLineNumbersForLiveUpdates (gutter : List LineEntry)
    (newLineCount oldLineCount : Nat) (startLine : Option Int)
    (withShare : Bool) (blockId : String) (fresh : Nat) :
    List LineEntry × Nat :=
  if newLineCount = oldLineCount then
    (renumberLoop startLine withShare blockId newLineCount 0 gutter, fresh)
  else if oldLineCount < newLineCount then
    (gutter ++ (List.range (newLineCount - oldLineCount)).map
      (fun j => mkLineEntry (fresh + j) (jsAdd startLine (oldLineCount + j)) withShare blockId),
     fresh + (newLineCount - oldLineCount))
  else
    (renumberLoop startLine withShare blockId newLineCount 0
      (gutter.take newLineCount ++ gutter.drop oldLineCount),
     fresh)

/-- `HighlightIt.addLineNumbers` (src/index.js:1426-1508): initial gutter
construction — one fresh entry per newline-delimited line of the trimmed code,
numbered from the configured start (`parseInt` of the `line-start` attributes,
defaulting to 1).  The temporary-id / asynchronous hash re-binding of the
share buttons (src/index.js:1448-1471) only rewrites `data-block-id`
values and is not needed by the claims settled here; entry count and labels
are unaffected by it. -/
def addLineNumbers (code : String) (elementLineStart preLineStart : Option String)
    (withShare : Bool) (blockId : String) (fresh : Nat) : List LineEntry × Nat :=
  let lines := jsSplitNewline (jsTrim code)
  let lineCount := lines.length
  let startLine := resolveLineStart elementLineStart preLineStart
  ((List.range lineCount).map
    (fun i => mkLineEntry (fresh + i) (jsAdd startLine i) withShare blockId),
   fresh + lineCount)

/-- The inlined gutter diff of `HighlightIt.updateCodeBlock`
(src/index.js:1570-1692): first append or remove the delta when the counts
differ, then renumber/rebind the first `lineCount` entries (unlike
`updateLineNumbersForLiveUpdates`, the renumber pass here also runs after a
growth). -/
def updateCodeBlockGutter (gutter : List LineEntry) (lineCount oldLineCount : Nat)
    (lineStart : Option Int) (withShare : Bool) (blockId : String) (fresh : Nat) :
    List LineEntry × Nat :=
  let (g1, fresh1) :=
    if oldLineCount < lineCount then
      (gutter ++ (List.range (lineCount - oldLineCount)).map
        (fun j => mkLineEntry (fresh + j) (jsAdd lineStart (oldLineCount + j)) withShare blockId),
       fresh + (lineCount - oldLineCount))
    else if lineCount < oldLineCount then
      (gutter.take lineCount ++ gutter.drop oldLineCount, fresh)
    else (gutter, fresh)
  (renumberLoop lineStart withShare blockId lineCount 0 g1, fresh1)

/-! ## Identity resolution (src/index.js:192-231) -/

/-- The document as far as `updateBlockId` queries it: whether a
`.highlightit-original` element with a given id is present. -/
structure DocState where
  originalElementExists : String → Bool

/-- `HighlightIt.updateBlockId` (src/index.js:192-231), returning the
container's new DOM id and the resolved block id.  A truthy
`data-original-id` always wins (when the hidden original element is in the
document the container's duplicate id is cleared; otherwise the original id is
restored onto the container); else a truthy current DOM id; else the content
hash of the new code is assigned and cached on the container.  The source's
`catch` branch around hashing cannot fire for the model's total `hash`. -/
def updateBlockId (hash : String → String) (doc : DocState)
    (originalIdAttr : Option String) (containerId : String) (newCode : String) :
    String × String :=
  match jsTruthy originalIdAttr with
  | some originalId =>
      if doc.originalElementExists originalId then
        if containerId = originalId then ("", originalId)
        else (containerId, originalId)
      else
        if containerId = "" ∨ containerId ≠ originalId then (originalId, originalId)
        else (containerId, originalId)
  | none =>
      if containerId ≠ "" then (containerId, containerId)
      else
        let newId := hash newCode
        (newId, newId)

/-! ## Live-update reconciler (src/index.js:809-948, 1519-2062)

`BlockState` gathers the per-block DOM and closure state the reconciler reads
and writes: the hidden mirror's raw text, the `rehighlight` closure's
`lastProcessedCode` and `detectedLanguage`, the visible code element's inner
markup and class list, the header label, the container's identity attributes,
the line-number gutter, and the interactive buttons.  A button is a payload
paired with a listener generation (bumped whenever the source swaps the click
listener); the model keeps one copy/download/share button set, covering both
the header buttons and the floating buttons of no-header mode. -/

structure BlockState where
  mirrorText : String
  lastProcessedCode : String
  innerHTML : String
  codeClasses : List String
  headerPresent : Bool
  headerLanguage : Option String
  liveLanguage : Option String
  detectedLanguage : Option String
  autoDetect : Bool
  showLanguage : Bool
  withShare : Bool
  withShareAttr : Bool
  withDownloadAttr : Bool
  withLines : Bool
  noHeader : Bool
  elementLineStart : Option String
  preLineStart : Option String
  containerLineStart : Option String
  datasetLanguage : Option String
  containerOriginalId : Option String
  containerId : String
  containerFilename : Option String
  gutter : List LineEntry
  fresh : Nat
  copyBtn : Option (String × Nat)
  downloadBtn : Option (String × String × Nat)
  shareBtn : Option (String × Nat)
deriving Repr, DecidableEq

/-- `polyfills.classList.add`: append the class when missing. -/
def classListAdd (classes : List String) (c : String) : List String :=
  if c ∈ classes then classes else classes ++ [c]

/-- Header language-label update (src/index.js:723-736, 866-879, 2044-2057):
when the header exists, set the label's text (creating the label when
absent). -/
def setHeaderLanguage (s : BlockState) (lang : String) : BlockState :=
  if s.headerPresent then { s with headerLanguage := some lang } else s

/-- The code element's language for download-filename purposes
(src/index.js:1751-1755): `dataset.language` when truthy, else the capture of
the first `language-…` class. -/
def codeLanguageOf (s : BlockState) : Option String :=
  match jsTruthy s.datasetLanguage with
  | some l => some l
  | none =>
      s.codeClasses.findSome? (fun c =>
        if c.startsWith "language-" then some (c.drop 9) else none)

/-- The identity of `HighlightIt.createShareButton` (src/index.js:146-184):
`data-original-id`, else the container's id, else the content hash which is
also assigned as the container's id.  Returns the bound block id and the
container id afterwards. -/
def createShareButtonId (hash : String → String) (originalIdAttr : Option String)
    (containerId : String) (code : String) : String × String :=
  match jsOr originalIdAttr (some containerId) with
  | some blockId => (blockId, containerId)
  | none =>
      let blockId := hash code
      (blockId, blockId)

/-- The highlighting step of `updateCodeBlock` (src/index.js:1532-1547):
re-highlight the cleaned code for the resolved language, falling back to
escaped text, and replace the visible inner markup. -/
def ucbHighlight (engine : Engine) (s : BlockState) (language : Option String)
    (cleanedCode : String) : BlockState :=
  { s with innerHTML :=
      match language with
      | some l =>
          match engine.highlight cleanedCode l with
          | .ok r => r.value
          | .error _ => escapeHtml cleanedCode
      | none => escapeHtml cleanedCode }

/-- The gutter step of `updateCodeBlock` (src/index.js:1549-1696): on a
line-numbered block, run the inlined incremental gutter diff against the new
line count.  The old count here comes from
`querySelectorAll('.highlightit-line-number-container, .highlightit-line-number')`
(src/index.js:1551-1558), a compound selector that matches each entry's
container div and also its inner numbered span, so it reports twice the
number of gutter entries. -/
def ucbGutter (s : BlockState) (cleanedCode : String) : BlockState :=
  if s.withLines = true ∨ s.elementLineStart.isSome = true then
    let lineCount := (jsSplitNewline cleanedCode).length
    let oldLineCount := 2 * s.gutter.length
    let lineStart := resolveLineStart s.elementLineStart s.containerLineStart
    let currentBlockId :=
      match jsTruthy s.containerOriginalId with
      | some o => o
      | none => s.containerId
    let gf := updateCodeBlockGutter s.gutter lineCount oldLineCount lineStart
      s.withShareAttr currentBlockId s.fresh
    { s with gutter := gf.1, fresh := gf.2 }
  else s

/-- The copy-button step of `updateCodeBlock` (src/index.js:1698-1737): rebind
the copy payload (fresh listener) when the cached snapshot is stale. -/
def ucbCopy (s : BlockState) (cleanedCode : String) : BlockState :=
  { s with copyBtn := s.copyBtn.map (fun (p, g) =>
      if p ≠ cleanedCode then (cleanedCode, g + 1) else (p, g)) }

/-- The download-button step of `updateCodeBlock` (src/index.js:1739-1791):
rebind the download payload, recomputing the filename, when the cached
snapshot is stale. -/
def ucbDownload (s : BlockState) (cleanedCode : String) : BlockState :=
  { s with downloadBtn := s.downloadBtn.map (fun (p, fn, g) =>
      if p ≠ cleanedCode then
        (cleanedCode, deriveDownloadFilename s.containerFilename (codeLanguageOf s), g + 1)
      else (p, fn, g)) }

/-- The share-button step of `updateCodeBlock` (src/index.js:1793-1867):
refresh the identity binding — an original id only updates the cached id, a
container id rebinds when stale, and an absent id assigns the content hash to
the container before binding. -/
def ucbShare (hash : String → String) (s : BlockState) (cleanedCode : String) :
    BlockState :=
  match s.shareBtn with
  | none => s
  | some (cur, g) =>
      match jsTruthy s.containerOriginalId with
      | some o => { s with shareBtn := some (o, g) }
      | none =>
          if s.containerId ≠ "" then
            if cur ≠ s.containerId then
              { s with shareBtn := some (s.containerId, g + 1) }
            else s
          else
            let blockId := hash cleanedCode
            if cur ≠ blockId then
              { s with containerId := blockId, shareBtn := some (blockId, g + 1) }
            else { s with containerId := blockId }

/-- The floating-button recreation step of `updateCodeBlock`
(src/index.js:2029-2042): a no-header container that lost its floating
buttons gets them rebuilt (copy always, download/share per attributes, the
share button resolving an id as `createShareButton` does). -/
def ucbFloating (hash : String → String) (s : BlockState) (cleanedCode : String) :
    BlockState :=
  if s.noHeader && s.copyBtn.isNone && s.downloadBtn.isNone && s.shareBtn.isNone then
    let s1 := { s with copyBtn := some (cleanedCode, 0) }
    let s2 :=
      if s1.withDownloadAttr then
        { s1 with downloadBtn := some (cleanedCode,
            deriveDownloadFilename s1.containerFilename (codeLanguageOf s1), 0) }
      else s1
    if s2.withShareAttr then
      let bc := createShareButtonId hash s2.containerOriginalId s2.containerId
        cleanedCode
      { s2 with containerId := bc.2, shareBtn := some (bc.1, 0) }
    else s2
  else s

/-- The header-label step of `updateCodeBlock` (src/index.js:2044-2057). -/
def ucbLabel (s : BlockState) (showLanguage : Bool) (language : Option String)
    (displayLabel : Option String) : BlockState :=
  if showLanguage ∧ language.isSome then
    setHeaderLanguage s ((jsOr displayLabel language).getD "")
  else s

/-- `HighlightIt.updateCodeBlock` (src/index.js:1519-2062): clean the code,
resolve the language (filename-derived when applicable), then run the
highlight, gutter, copy, download, share, floating-button and header-label
steps in source order. -/
def updateCodeBlock (engine : Engine) (hash : String → String) (s : BlockState)
    (languageOrFilename : Option String) (code : String) (showLanguage : Bool) :
    BlockState :=
  let cleanedCode := jsTrim code
  let language : Option String :=
    match jsTruthy languageOrFilename with
    | some l => some ((getLanguageFromFilename l).getD l)
    | none => none
  ucbLabel
    (ucbFloating hash
      (ucbShare hash
        (ucbDownload
          (ucbCopy
            (ucbGutter (ucbHighlight engine s language cleanedCode) cleanedCode)
            cleanedCode)
          cleanedCode)
        cleanedCode)
      cleanedCode)
    showLanguage language languageOrFilename

/-- The synchronous gutter pass of the `rehighlight` closure
(src/index.js:900-930): when the container is in line-number mode, diff the
gutter against the new line count with `updateLineNumbersForLiveUpdates`,
using the attribute-derived share flag and the current block id.  The gutter
wrapper exists here because `addLineNumbers` ran during initial
highlighting. -/
def gutterBlock (s : BlockState) (code : String) : BlockState :=
  if s.withLines then
    let lineCount := (jsSplitNewline code).length
    let oldLineCount := s.gutter.length
    let lineStart := resolveLineStart s.elementLineStart s.preLineStart
    let currentBlockId :=
      match jsTruthy s.containerOriginalId with
      | some o => o
      | none => s.containerId
    let gf := updateLineNumbersForLiveUpdates s.gutter lineCount oldLineCount
      lineStart s.withShareAttr currentBlockId s.fresh
    { s with gutter := gf.1, fresh := gf.2 }
  else s

/-- The non-share update body of `rehighlight` (src/index.js:855-898):
auto-detect mode re-detects only while no language is locked in (or a visible
label is still missing), otherwise re-highlights with the locked language;
with an explicit language the whole `updateCodeBlock` runs. -/
def rehighlightNonShare (engine : Engine) (hash : String → String)
    (s : BlockState) (code : String) : BlockState :=
  if ¬langTruthy s.liveLanguage ∧ s.autoDetect then
    if ¬langTruthy s.detectedLanguage ∨
        (s.showLanguage ∧ ¬(s.headerPresent ∧ s.headerLanguage.isSome)) then
      let result := autoDetectLanguage engine code
      let detected :=
        match jsTruthy result.language with
        | some l => l
        | none => "unknown"
      let s1 := { s with
        detectedLanguage := some detected
        innerHTML := result.value
        codeClasses := classListAdd s.codeClasses ("language-" ++ detected) }
      if s1.showLanguage then setHeaderLanguage s1 detected else s1
    else
      match s.detectedLanguage with
      | some d =>
          let value :=
            match engine.highlight code d with
            | .ok r => r.value
            | .error _ => escapeHtml code
          { s with
            innerHTML := value
            codeClasses := classListAdd s.codeClasses ("language-" ++ d) }
      | none => s
  else
    let s1 := updateCodeBlock engine hash s s.liveLanguage code s.showLanguage
    let cls :=
      match jsTruthy s.liveLanguage with
      | some l => l
      | none => "unknown"
    { s1 with codeClasses := classListAdd s1.codeClasses ("language-" ++ cls) }

/-- The `rehighlight` closure of `HighlightIt.setupLiveUpdates`
(src/index.js:839-931): read the mirror's trimmed text; bail out when it is
empty or identical to the last processed snapshot; otherwise record the
snapshot and update.  In share mode the synchronous gutter pass runs first
(before the `updateBlockId(...).then(...)` callback fires), then the identity
update and `updateCodeBlock`; otherwise the non-share body runs and then the
gutter pass. -/
def rehighlight (engine : Engine) (hash : String → String) (doc : DocState)
    (s : BlockState) : BlockState :=
  let code := jsTrim s.mirrorText
  if code = "" then s
  else if code = s.lastProcessedCode then s
  else
    let s1 := { s with lastProcessedCode := code }
    if s1.withShare then
      let s2 := gutterBlock s1 code
      let cid :=
        (updateBlockId hash doc s2.containerOriginalId s2.containerId code).1
      let s3 := { s2 with containerId := cid }
      updateCodeBlock engine hash s3 s3.liveLanguage code s3.showLanguage
    else
      let s2 := rehighlightNonShare engine hash s1 code
      gutterBlock s2 code

/-! ## On-demand highlight entry point (src/index.js:2224-2306) -/

/-- A DOM element as the `HighlightIt.highlight` guard inspects it: its own
class list and the class lists of its proper ancestors, innermost first. -/
structure DomElement where
  classes : List String
  ancestorClasses : List (List String)
deriving Repr, DecidableEq

/-- `element.closest('.highlightit-container')` is non-null: the element
itself or some ancestor carries the class. -/
def closestContainer (e : DomElement) : Bool :=
  ("highlightit-container" ∈ e.classes) ||
    e.ancestorClasses.any (fun cs => "highlightit-container" ∈ cs)

/-- `element.parentElement` exists and carries `highlightit-container`. -/
def parentIsContainer (e : DomElement) : Bool :=
  match e.ancestorClasses with
  | cs :: _ => "highlightit-container" ∈ cs
  | [] => false

/-- The up-front rejection test of `HighlightIt.highlight`
(src/index.js:2225-2230): the element is a hidden original, or sits inside
(or is) a canonical container. -/
def highlightRejects (e : DomElement) : Bool :=
  ("highlightit-original" ∈ e.classes) || closestContainer e || parentIsContainer e

/-- `HighlightIt.highlight` (src/index.js:2224-2306), with the post-guard
processing pipeline (attribute writes + `processElement` + container lookup)
as the black-box `process`.  Returns the element handed back to the caller, a
flag for the logged warning, and the list of mutations applied to the
element.  A rejected element is returned unchanged with a warning and no
mutations; otherwise the pipeline's result is returned. -/
def highlight (process : DomElement → DomElement × List String) (e : DomElement) :
    DomElement × Bool × List String :=
  if highlightRejects e then (e, true, [])
  else
    let (r, ms) := process e
    (r, false, ms)

/-! ## Theorems -/

/-- C1: for every live-update block, when the debounced reconciliation
callback fires and the mirror's current trimmed text equals the last processed
snapshot, the second pass leaves the whole block state — inner markup,
classes, gutter, and button bindings — unchanged (zero additional DOM
writes). -/
theorem rehighlight_noop_of_unchanged_snapshot (engine : Engine)
    (hash : String → String) (doc : DocState) (s : BlockState)
    (h : jsTrim s.mirrorText = s.lastProcessedCode) :
    rehighlight engine hash doc s = s := by
  unfold rehighlight
  by_cases hc : jsTrim s.mirrorText = ""
  · simp [hc]
  · simp [hc, h]

/-- Witness for C1 at a concrete block whose mirror text trims to the last
processed snapshot. -/
theorem rehighlight_noop_of_unchanged_snapshot_witness :
    rehighlight ⟨fun _ _ => .error "", fun _ _ => .error ""⟩ (fun _ => "")
      ⟨fun _ => false⟩
      { mirrorText := " a\nb ", lastProcessedCode := "a\nb", innerHTML := "x",
        codeClasses := [], headerPresent := true, headerLanguage := none,
        liveLanguage := none, detectedLanguage := none, autoDetect := true,
        showLanguage := true, withShare := true, withShareAttr := true,
        withDownloadAttr := false, withLines := true, noHeader := false,
        elementLineStart := none, preLineStart := none,
        containerLineStart := none, datasetLanguage := none,
        containerOriginalId := none, containerId := "", containerFilename := none,
        gutter := [⟨0, some 1, none, none, 0⟩, ⟨1, some 2, none, none, 0⟩],
        fresh := 2, copyBtn := some ("a\nb", 0), downloadBtn := none,
        shareBtn := none } =
      { mirrorText := " a\nb ", lastProcessedCode := "a\nb", innerHTML := "x",
        codeClasses := [], headerPresent := true, headerLanguage := none,
        liveLanguage := none, detectedLanguage := none, autoDetect := true,
        showLanguage := true, withShare := true, withShareAttr := true,
        withDownloadAttr := false, withLines := true, noHeader := false,
        elementLineStart := none, preLineStart := none,
        containerLineStart := none, datasetLanguage := none,
        containerOriginalId := none, containerId := "", containerFilename := none,
        gutter := [⟨0, some 1, none, none, 0⟩, ⟨1, some 2, none, none, 0⟩],
        fresh := 2, copyBtn := some ("a\nb", 0), downloadBtn := none,
        shareBtn := none } :=
  rehighlight_noop_of_unchanged_snapshot _ _ _ _ (by decide)

/-- C3: identity resolution follows the strict priority order of
`updateBlockId` — a truthy `data-original-id` wins for every hash function
(so a block with an original id never resolves to a content hash), else a
truthy DOM id, else the content hash, which is also cached as the container's
id. -/
theorem updateBlockId_priority (hash : String → String) (doc : DocState)
    (originalIdAttr : Option String) (containerId newCode : String) :
    (∀ o, jsTruthy originalIdAttr = some o →
      (updateBlockId hash doc originalIdAttr containerId newCode).2 = o) ∧
    (jsTruthy originalIdAttr = none → containerId ≠ "" →
      (updateBlockId hash doc originalIdAttr containerId newCode).2 = containerId) ∧
    (jsTruthy originalIdAttr = none → containerId = "" →
      (updateBlockId hash doc originalIdAttr containerId newCode).2 = hash newCode ∧
      (updateBlockId hash doc originalIdAttr containerId newCode).1 = hash newCode) := by
  refine ⟨?_, ?_, ?_⟩
  · intro o ho
    unfold updateBlockId
    rw [ho]
    by_cases h1 : doc.originalElementExists o <;> simp [h1] <;> split <;> rfl
  · intro ho hc
    unfold updateBlockId
    rw [ho]
    simp [hc]
  · intro ho hc
    unfold updateBlockId
    rw [ho]
    simp [hc]

/-- Witness for C3: all three priority levels at concrete containers. -/
theorem updateBlockId_priority_witness :
    (updateBlockId (fun _ => "HASH") ⟨fun _ => true⟩ (some "foo") "bar" "x").2 = "foo" ∧
    (updateBlockId (fun _ => "HASH") ⟨fun _ => true⟩ none "bar" "x").2 = "bar" ∧
    (updateBlockId (fun _ => "HASH") ⟨fun _ => true⟩ none "" "x").2 = "HASH" :=
  ⟨(updateBlockId_priority (fun _ => "HASH") ⟨fun _ => true⟩ (some "foo") "bar" "x").1
      "foo" (by decide),
   (updateBlockId_priority (fun _ => "HASH") ⟨fun _ => true⟩ none "bar" "x").2.1
      (by decide) (by decide),
   ((updateBlockId_priority (fun _ => "HASH") ⟨fun _ => true⟩ none "" "x").2.2
      (by decide) rfl).1⟩

/-- C9: the on-demand highlight entry point rejects an element that is a
hidden original or already sits in a canonical container: it warns, applies
no mutation, and hands the element back unchanged, whatever the processing
pipeline would have done. -/
theorem highlight_rejects_unchanged (process : DomElement → DomElement × List String)
    (e : DomElement) (h : highlightRejects e = true) :
    highlight process e = (e, true, []) := by
  simp [highlight, h]

/-- Witness for C9 at a concrete hidden-original element. -/
theorem highlight_rejects_unchanged_witness :
    highlight (fun x => (x, ["mutated"])) ⟨["highlightit-original"], []⟩ =
      (⟨["highlightit-original"], []⟩, true, []) :=
  highlight_rejects_unchanged _ _ (by decide)

/-- C6: auto-detection short-circuits inputs whose trimmed length is below 3
to escaped plaintext; otherwise it first runs detection restricted to the
curated popular-language set, uses the unrestricted detector only when that
yields no (truthy) language, and answers escaped text with language
`"unknown"` when the engine throws in either call. -/
theorem autoDetectLanguage_spec (engine : Engine) (code : String) :
    ((jsTrim code).length < 3 →
      autoDetectLanguage engine code =
        { value := escapeHtml code, language := some "plaintext" }) ∧
    (3 ≤ (jsTrim code).length →
      (∀ r, engine.highlightAuto code (some popularLanguages) = .ok r →
        langTruthy r.language = true → autoDetectLanguage engine code = r) ∧
      (∀ r r2, engine.highlightAuto code (some popularLanguages) = .ok r →
        langTruthy r.language = false →
        engine.highlightAuto code none = .ok r2 →
        autoDetectLanguage engine code = r2) ∧
      (∀ err, engine.highlightAuto code (some popularLanguages) = .error err →
        autoDetectLanguage engine code =
          { value := escapeHtml code, language := some "unknown" }) ∧
      (∀ r err, engine.highlightAuto code (some popularLanguages) = .ok r →
        langTruthy r.language = false →
        engine.highlightAuto code none = .error err →
        autoDetectLanguage engine code =
          { value := escapeHtml code, language := some "unknown" })) := by
  constructor
  · intro h
    unfold autoDetectLanguage
    rw [if_pos (Or.inr h)]
  · intro h
    have hne : ¬(code = "" ∨ (jsTrim code).length < 3) := by
      rintro (rfl | hlt)
      · have he : jsTrim "" = "" := rfl
        rw [he] at h
        simp at h
      · omega
    refine ⟨?_, ?_, ?_, ?_⟩
    · intro r hr ht
      unfold autoDetectLanguage
      rw [if_neg hne, hr]
      simp [ht]
    · intro r r2 hr ht h2
      unfold autoDetectLanguage
      rw [if_neg hne, hr]
      simp [ht, h2]
    · intro err herr
      unfold autoDetectLanguage
      rw [if_neg hne, herr]
    · intro r err hr ht h2
      unfold autoDetectLanguage
      rw [if_neg hne, hr]
      simp [ht, h2]

/-- Witness for C6: all branches at concrete engines and inputs. -/
theorem autoDetectLanguage_spec_witness :
    (autoDetectLanguage ⟨fun _ _ => .error "", fun _ _ => .error ""⟩ "hi" =
      { value := escapeHtml "hi", language := some "plaintext" }) ∧
    (autoDetectLanguage
        ⟨fun _ s => if s.isSome then .ok ⟨"P", some "python"⟩ else .ok ⟨"U", some "lua"⟩,
         fun _ _ => .error ""⟩ "print(1)" = ⟨"P", some "python"⟩) ∧
    (autoDetectLanguage
        ⟨fun _ s => if s.isSome then .ok ⟨"P", none⟩ else .ok ⟨"U", some "lua"⟩,
         fun _ _ => .error ""⟩ "print(1)" = ⟨"U", some "lua"⟩) ∧
    (autoDetectLanguage ⟨fun _ _ => .error "no hljs", fun _ _ => .error ""⟩ "print(1)" =
      { value := escapeHtml "print(1)", language := some "unknown" }) :=
  ⟨(autoDetectLanguage_spec ⟨fun _ _ => .error "", fun _ _ => .error ""⟩ "hi").1
      (by decide),
   ((autoDetectLanguage_spec
        ⟨fun _ s => if s.isSome then .ok ⟨"P", some "python"⟩ else .ok ⟨"U", some "lua"⟩,
         fun _ _ => .error ""⟩ "print(1)").2 (by decide)).1 _ rfl (by decide),
   (((autoDetectLanguage_spec
        ⟨fun _ s => if s.isSome then .ok ⟨"P", none⟩ else .ok ⟨"U", some "lua"⟩,
         fun _ _ => .error ""⟩ "print(1)").2 (by decide)).2.1 _ _ rfl (by decide) rfl),
   (((autoDetectLanguage_spec ⟨fun _ _ => .error "no hljs", fun _ _ => .error ""⟩
        "print(1)").2 (by decide)).2.2.1 _ rfl)⟩

/-- C7 counterexample: for the unrecognized language `"kotlin"` (no entry of
the extension table maps to it) the derived download filename is
`"code.kotlin"`, not the claimed default `"code.txt"`. -/
theorem downloadFilename_unrecognized_not_txt :
    deriveDownloadFilename none (some "kotlin") = "code.kotlin" ∧
      deriveDownloadFilename none (some "kotlin") ≠ "code.txt" := by
  constructor <;> decide

/-- C7 (amended): the download filename is the explicit filename attribute
when truthy; otherwise `"code."` plus the extension for the block's language,
where the extension is the (first) table key for a recognized language, the
lowercased language itself when unrecognized, and `"txt"` only when the
language is absent or empty. -/
theorem deriveDownloadFilename_spec (datasetFilename language : Option String) :
    (∀ f, jsTruthy datasetFilename = some f →
      deriveDownloadFilename datasetFilename language = f) ∧
    (jsTruthy datasetFilename = none → jsTruthy language = none →
      deriveDownloadFilename datasetFilename language = "code.txt") ∧
    (∀ l, jsTruthy datasetFilename = none → jsTruthy language = some l →
      deriveDownloadFilename datasetFilename language =
        "code." ++ getLanguageFileExtension l) ∧
    (∀ l p, l ≠ "" → extensionMap.find? (fun q => q.2 = jsToLower l) = some p →
      getLanguageFileExtension l = p.1) ∧
    (∀ l, l ≠ "" → extensionMap.find? (fun q => q.2 = jsToLower l) = none →
      getLanguageFileExtension l = jsToLower l) := by
  refine ⟨?_, ?_, ?_, ?_, ?_⟩
  · intro f hf
    unfold deriveDownloadFilename
    rw [hf]
  · intro h1 h2
    unfold deriveDownloadFilename
    rw [h1, h2]
    rfl
  · intro l h1 h2
    unfold deriveDownloadFilename
    rw [h1, h2]
  · intro l p hl hp
    unfold getLanguageFileExtension
    rw [if_neg hl, hp]
  · intro l hl hp
    unfold getLanguageFileExtension
    rw [if_neg hl, hp]

/-- Witness for C7's amended statement at concrete inputs. -/
theorem deriveDownloadFilename_spec_witness :
    (deriveDownloadFilename (some "app.ts") (some "python") = "app.ts") ∧
    (deriveDownloadFilename none none = "code.txt") ∧
    (deriveDownloadFilename none (some "python") =
      "code." ++ getLanguageFileExtension "python") ∧
    (getLanguageFileExtension "python" = "py") ∧
    (getLanguageFileExtension "kotlin" = jsToLower "kotlin") :=
  ⟨(deriveDownloadFilename_spec (some "app.ts") (some "python")).1 "app.ts" (by decide),
   (deriveDownloadFilename_spec none none).2.1 rfl rfl,
   (deriveDownloadFilename_spec none (some "python")).2.2.1 "python" rfl (by decide),
   (deriveDownloadFilename_spec none (some "python")).2.2.2.1 "python" ("py", "python")
      (by decide) (by decide),
   (deriveDownloadFilename_spec none (some "kotlin")).2.2.2.2 "kotlin"
      (by decide) (by decide)⟩

/-- C8 counterexample: for the wholly non-numeric line-start `"abc"`,
`parseInt` yields `NaN` (no numeric fallback applies, since `|| 1` catches
only absent/empty attributes), and the gutter labels of a two-line block are
`NaN`, not valid integers. -/
theorem lineStart_nonNumeric_nan :
    resolveLineStart (some "abc") none = none ∧
    (addLineNumbers "a\nb" (some "abc") none false "" 0).1.map LineEntry.label =
      [none, none] := by
  constructor <;> decide

/-- C8 (amended): an absent or empty line-start attribute falls back to the
numeric default 1, and a value with a numeric prefix parses to its integer
value so line numbering produces valid integer labels; a wholly non-numeric
line-start parses to `NaN`.  An invalid theme name is ignored and the theme
defaults to `"auto"`. -/
theorem malformedConfig_spec (s : String) (pre : Option String) (theme : String) :
    (resolveLineStart none none = some 1) ∧
    (resolveLineStart (some "") (some "") = some 1) ∧
    (s ≠ "" → ∀ n, jsParseInt s = some n → resolveLineStart (some s) pre = some n) ∧
    (∀ code els pls ws bid f n, resolveLineStart els pls = some n →
      ∀ e ∈ (addLineNumbers code els pls ws bid f).1, e.label.isSome = true) ∧
    (theme ≠ "light" → theme ≠ "dark" → theme ≠ "auto" →
      applyGlobalTheme theme = "auto") := by
  refine ⟨by decide, by decide, ?_, ?_, ?_⟩
  · intro hs n hn
    unfold resolveLineStart jsOr jsTruthy
    simp [hs, hn]
  · intro code els pls ws bid f n hn e he
    unfold addLineNumbers at he
    simp only [List.mem_map, List.mem_range] at he
    obtain ⟨i, _, rfl⟩ := he
    rw [hn]
    unfold mkLineEntry
    split <;> simp [jsAdd]
  · intro h1 h2 h3
    unfold applyGlobalTheme
    rw [if_neg]
    rintro (h | h | h) <;> contradiction

/-- Witness for C8's amended statement at concrete configurations. -/
theorem malformedConfig_spec_witness :
    (resolveLineStart none none = some 1) ∧
    (resolveLineStart (some "10") none = some 10) ∧
    (∀ e ∈ (addLineNumbers "x\ny\nz" (some "10") none false "" 0).1,
      e.label.isSome = true) ∧
    (applyGlobalTheme "solarized" = "auto") :=
  ⟨(malformedConfig_spec "10" none "solarized").1,
   (malformedConfig_spec "10" none "solarized").2.2.1 (by decide) 10 (by decide),
   (malformedConfig_spec "10" none "solarized").2.2.2.1 "x\ny\nz" (some "10") none
      false "" 0 10 (by decide),
   (malformedConfig_spec "10" none "solarized").2.2.2.2 (by decide) (by decide)
      (by decide)⟩

/-- `takeWhile` consumes exactly the prefix before the first failing
element. -/
theorem takeWhile_append_cons (p : Char → Bool) (l : List Char) (x : Char)
    (r : List Char) (hl : ∀ c ∈ l, p c = true) (hx : p x = false) :
    (l ++ x :: r).takeWhile p = l := by
  induction l with
  | nil => simp [List.takeWhile, hx]
  | cons a as ih =>
      have ha : p a = true := hl a (by simp)
      simp only [List.cons_append, List.takeWhile, ha]
      exact congrArg (a :: ·) (ih (fun c hc => hl c (by simp [hc])))

/-- The segment after the last dot of `p ++ "." ++ e` is `e` when `e` itself
has no dot. -/
theorem splitPop_append (p e : List Char) (he : '.' ∉ e) :
    splitPop (p ++ '.' :: e) = e := by
  unfold splitPop
  rw [List.reverse_append, List.reverse_cons, List.append_assoc,
    List.singleton_append]
  rw [takeWhile_append_cons _ e.reverse '.' p.reverse
    (fun c hc => by
      simp only [List.mem_reverse] at hc
      simp only [decide_eq_true_eq]
      intro hcd
      exact he (hcd ▸ hc))
    (by simp)]
  exact List.reverse_reverse e

/-- The round trip through a concrete table row: when the extension derived
for `L` looks itself up to `L`, is lowercase-fixed, and has no dot, every
filename ending in it resolves back to `L`. -/
theorem roundtrip_master (L : String)
    (h1 : mapGet extensionMap (getLanguageFileExtension L) = some L)
    (h2 : lowerChars (getLanguageFileExtension L).data = (getLanguageFileExtension L).data)
    (h3 : '.' ∉ (getLanguageFileExtension L).data) (p : String) :
    getLanguageFromFilename (p ++ "." ++ getLanguageFileExtension L) = some L := by
  unfold getLanguageFromFilename
  have hd : (p ++ "." ++ getLanguageFileExtension L).data =
      p.data ++ '.' :: (getLanguageFileExtension L).data := by
    simp [String.data_append]
  rw [hd, splitPop_append _ _ h3, h2]
  exact h1

/-- C10: for every language `L` occurring as a value of the extension table,
`getLanguageFromFilename` of any filename ending in `"." ++
getLanguageFileExtension L` returns `L`. -/
theorem extension_roundtrip (L : String) (hL : L ∈ extensionMap.map Prod.snd)
    (p : String) :
    getLanguageFromFilename (p ++ "." ++ getLanguageFileExtension L) = some L := by
  fin_cases hL <;>
    exact roundtrip_master _ (by decide) (by decide) (by decide) p

/-- Witness for C10 at a concrete language and filename stem. -/
theorem extension_roundtrip_witness :
    getLanguageFromFilename ("app" ++ "." ++ getLanguageFileExtension "typescript") =
      some "typescript" :=
  extension_roundtrip "typescript" (by decide) "app"

/-- Each digit the base-62 loop prepends is a base-62 character. -/
theorem base62_getD_mem (n : Nat) : BASE62_CHARS.getD (n % 62) '0' ∈ BASE62_CHARS := by
  have hlen : BASE62_CHARS.length = 62 := by decide
  have h : n % 62 < BASE62_CHARS.length := by
    rw [hlen]; exact Nat.mod_lt _ (by norm_num)
  rw [List.getD_eq_getElem _ _ h]
  exact List.getElem_mem h

/-- The base-62 loop never stops before producing 12 digits. -/
theorem base62Loop_length_ge (m : Nat) :
    ∀ value acc, value + (12 - acc.length) ≤ m →
      12 ≤ (base62Loop value acc).length := by
  induction m with
  | zero =>
      intro v acc h
      rw [base62Loop, dif_neg (by omega)]
      omega
  | succ m ih =>
      intro v acc h
      rw [base62Loop]
      by_cases hc : 0 < v ∨ acc.length < 12
      · rw [dif_pos hc]
        have h62 : v / 62 < v ∨ v = 0 := by
          rcases Nat.eq_zero_or_pos v with h0 | h0
          · right; exact h0
          · left; exact Nat.div_lt_self h0 (by norm_num)
        split
        · rename_i hz
          exact ih _ _ (by simp only [List.length_cons]; omega)
        · rename_i hz
          exact ih _ _ (by simp only [List.length_cons]; omega)
      · rw [dif_neg hc]
        omega

/-- Every character the base-62 loop produces is a base-62 digit or was
already in the accumulator. -/
theorem base62Loop_chars (m : Nat) :
    ∀ value acc, value + (12 - acc.length) ≤ m →
      ∀ c ∈ base62Loop value acc, c ∈ BASE62_CHARS ∨ c ∈ acc := by
  induction m with
  | zero =>
      intro v acc h c hc
      rw [base62Loop, dif_neg (by omega)] at hc
      exact Or.inr hc
  | succ m ih =>
      intro v acc h c hc
      rw [base62Loop] at hc
      by_cases hcond : 0 < v ∨ acc.length < 12
      · rw [dif_pos hcond] at hc
        have h62 : v / 62 < v ∨ v = 0 := by
          rcases Nat.eq_zero_or_pos v with h0 | h0
          · right; exact h0
          · left; exact Nat.div_lt_self h0 (by norm_num)
        revert hc
        split
        · rename_i hz
          intro hc
          rcases ih _ _ (by simp only [List.length_cons]; omega) c hc with hm | hm
          · exact Or.inl hm
          · rcases List.mem_cons.mp hm with rfl | hm2
            · exact Or.inl (by decide)
            · rcases List.mem_cons.mp hm2 with rfl | hm3
              · exact Or.inl (base62_getD_mem v)
              · exact Or.inr hm3
        · rename_i hz
          intro hc
          rcases ih _ _ (by simp only [List.length_cons]; omega) c hc with hm | hm
          · exact Or.inl hm
          · rcases List.mem_cons.mp hm with rfl | hm2
            · exact Or.inl (base62_getD_mem v)
            · exact Or.inr hm2
      · rw [dif_neg hcond] at hc
        exact Or.inr hc

/-- The digest reduction always yields exactly 12 base-62 characters. -/
theorem base62OfDigest_shape (hashArray : List Nat) :
    (base62OfDigest hashArray).length = 12 ∧
    ∀ c ∈ (base62OfDigest hashArray).data, c ∈ BASE62_CHARS := by
  unfold base62OfDigest
  set value := hashArray.foldl (fun a b => (a <<< 8) ||| b) 0 with hv
  have h12 : 12 ≤ (base62Loop value []).length :=
    base62Loop_length_ge (value + 12) value [] (by simp)
  have hslice : (sliceLast12 (base62Loop value [])).length = 12 := by
    unfold sliceLast12
    rw [List.length_drop]
    omega
  have hpad : padStart12 (sliceLast12 (base62Loop value [])) =
      sliceLast12 (base62Loop value []) := by
    unfold padStart12
    rw [hslice]
    simp
  constructor
  · show (String.mk _).length = 12
    simp only [String.length, hpad]
    exact hslice
  · intro c hc
    show c ∈ BASE62_CHARS
    simp only [String.mk] at hc
    rw [hpad] at hc
    have hsub : c ∈ base62Loop value [] := by
      unfold sliceLast12 at hc
      exact List.drop_subset _ _ hc
    rcases base62Loop_chars (value + 12) value [] (by simp) c hsub with hm | hm
    · exact hm
    · cases hm

/-- The fallback hash always has the 14-character shape `"h-"` + 12 hex
characters. -/
theorem simpleHash_shape (str : String) :
    (simpleHash str).length = 14 ∧ (simpleHash str).data.take 2 = ['h', '-'] := by
  unfold simpleHash
  by_cases h : str = ""
  · rw [if_pos h]
    constructor <;> decide
  · rw [if_neg h]
    have htake : ((padStart12 (natToHex (simpleHashLoop 0 str.data).natAbs)).take 12).length
        = 12 := by
      rw [List.length_take]
      unfold padStart12
      rw [List.length_append, List.length_replicate]
      omega
    constructor
    · rw [String.length_append]
      simp only [String.length, htake]
      rfl
    · rw [String.data_append]
      rfl

/-- C5 counterexample: the fallback hash does not have the 12-character
shape — already on the empty input it is the 14-character string
`"h-000000000000"`. -/
theorem simpleHash_not_twelve_chars :
    simpleHash "" = "h-000000000000" ∧ (simpleHash "").length ≠ 12 := by
  constructor <;> decide

/-- C5 (amended): with the secure digest, text encoder and big-integer
primitives available, `generateHash` returns a fixed-width 12-character
base-62 reduction of the (black-box) SHA-256 digest; when any of them is
unavailable it falls back to `polyfills.simpleHash`, which is deterministic
(a pure function of the input) but has the 14-character shape `"h-"` followed
by 12 hex characters, not the claimed 12-character shape. -/
theorem generateHash_shape (cryptoAvailable textEncoderAvailable bigIntAvailable : Bool)
    (digest : String → List Nat) (input : String) :
    (cryptoAvailable = true → textEncoderAvailable = true → bigIntAvailable = true →
      (generateHash cryptoAvailable textEncoderAvailable bigIntAvailable digest input).length
          = 12 ∧
      ∀ c ∈ (generateHash cryptoAvailable textEncoderAvailable bigIntAvailable
          digest input).data, c ∈ BASE62_CHARS) ∧
    (cryptoAvailable = false ∨ textEncoderAvailable = false ∨ bigIntAvailable = false →
      generateHash cryptoAvailable textEncoderAvailable bigIntAvailable digest input =
        simpleHash input) ∧
    ((simpleHash input).length = 14 ∧ (simpleHash input).data.take 2 = ['h', '-']) := by
  refine ⟨?_, ?_, simpleHash_shape input⟩
  · intro h1 h2 h3
    unfold generateHash
    rw [h1, h2, h3]
    simp only [Bool.not_true, reduceIte]
    exact base62OfDigest_shape (digest input)
  · intro hor
    unfold generateHash
    rcases hor with h | h | h <;> rw [h] <;> simp

/-- Witness for C5's amended statement: all-primitives-available path and
fallback path at concrete inputs. -/
theorem generateHash_shape_witness :
    ((generateHash true true true (fun _ => List.replicate 32 255) "abc").length = 12 ∧
      ∀ c ∈ (generateHash true true true (fun _ => List.replicate 32 255) "abc").data,
        c ∈ BASE62_CHARS) ∧
    (generateHash false true true (fun _ => List.replicate 32 255) "abc" =
      simpleHash "abc") ∧
    ((simpleHash "abc").length = 14 ∧ (simpleHash "abc").data.take 2 = ['h', '-']) :=
  ⟨(generateHash_shape true true true (fun _ => List.replicate 32 255) "abc").1
      rfl rfl rfl,
   (generateHash_shape false true true (fun _ => List.replicate 32 255) "abc").2.1
      (Or.inl rfl),
   (generateHash_shape false true true (fun _ => List.replicate 32 255) "abc").2.2⟩

/-- Renumbering an entry never changes which DOM node it is. -/
theorem renumberEntry_nodeId (st : Option Int) (ws : Bool) (bid : String)
    (i : Nat) (e : LineEntry) : (renumberEntry st ws bid i e).nodeId = e.nodeId := by
  unfold renumberEntry
  split
  · split <;> rfl
  · rfl

/-- A freshly built entry carries the node id it was given. -/
theorem mkLineEntry_nodeId (n : Nat) (ln : Option Int) (ws : Bool) (bid : String) :
    (mkLineEntry n ln ws bid).nodeId = n := by
  unfold mkLineEntry
  split <;> rfl

/-- The renumber loop keeps the gutter's length. -/
theorem renumberLoop_length (st : Option Int) (ws : Bool) (bid : String)
    (bound : Nat) : ∀ i l, (renumberLoop st ws bid bound i l).length = l.length := by
  intro i l
  induction l generalizing i with
  | nil => rfl
  | cons e es ih => simp [renumberLoop, ih]

/-- The renumber loop keeps every node identity, position by position. -/
theorem renumberLoop_map_nodeId (st : Option Int) (ws : Bool) (bid : String)
    (bound : Nat) : ∀ i l,
    (renumberLoop st ws bid bound i l).map LineEntry.nodeId =
      l.map LineEntry.nodeId := by
  intro i l
  induction l generalizing i with
  | nil => rfl
  | cons e es ih =>
      simp only [renumberLoop, List.map_cons, ih]
      split

      · rw [renumberEntry_nodeId]
      · rfl

/-- The number of entries of `new` whose DOM node does not occur in `old`. -/
def newcomers (new old : List LineEntry) : Nat :=
  (new.filter (fun e => !(decide (e.nodeId ∈ old.map LineEntry.nodeId)))).length

/-- No entry of `l` counts as a newcomer over a list containing all its
nodes. -/
theorem newcomers_eq_zero (l o : List LineEntry)
    (h : ∀ e ∈ l, e.nodeId ∈ o.map LineEntry.nodeId) : newcomers l o = 0 := by
  unfold newcomers
  rw [List.filter_eq_nil.mpr]
  · rfl
  · intro e he
    simp [h e he]

/-- C2: an incremental gutter update from `N = gutter.length` entries to `M`
lines touches exactly `|M - N|` DOM nodes: the result has `M` entries, the
first `min N M` keep their node identities position by position, exactly
`M - N` entries are newly created nodes, and exactly `N - M` old nodes
disappear. -/
theorem updateLineNumbers_incremental (gutter : List LineEntry) (M : Nat)
    (startLine : Option Int) (ws : Bool) (bid : String) (fresh : Nat)
    (hfresh : ∀ e ∈ gutter, e.nodeId < fresh)
    (hnodup : (gutter.map LineEntry.nodeId).Nodup) :
    ((updateLineNumbersForLiveUpdates gutter M gutter.length startLine ws bid
        fresh).1.length = M) ∧
    (((updateLineNumbersForLiveUpdates gutter M gutter.length startLine ws bid
        fresh).1.take (min gutter.length M)).map LineEntry.nodeId =
      (gutter.take (min gutter.length M)).map LineEntry.nodeId) ∧
    (newcomers (updateLineNumbersForLiveUpdates gutter M gutter.length startLine ws bid
        fresh).1 gutter = M - gutter.length) ∧
    (newcomers gutter (updateLineNumbersForLiveUpdates gutter M gutter.length startLine
        ws bid fresh).1 = gutter.length - M) := by
  set N := gutter.length with hN
  unfold updateLineNumbersForLiveUpdates
  rcases Nat.lt_trichotomy M N with hlt | heq | hgt
  · -- shrink
    rw [if_neg (by omega), if_neg (by omega)]
    simp only
    have hdrop : gutter.drop N = [] := by rw [hN]; exact List.drop_length gutter
    rw [hdrop, List.append_nil]
    set g := renumberLoop startLine ws bid M 0 (gutter.take M) with hg
    have hglen : g.length = M := by
      rw [hg, renumberLoop_length, List.length_take]
      omega
    have hgids : g.map LineEntry.nodeId = (gutter.map LineEntry.nodeId).take M := by
      rw [hg, renumberLoop_map_nodeId, List.map_take]
    refine ⟨hglen, ?_, ?_, ?_⟩
    · have hmin : min N M = M := by omega
      rw [hmin]
      have : g.take M = g := by
        rw [← hglen]
        exact List.take_length g
      rw [this, hgids, List.map_take]
    · have hz : newcomers g gutter = 0 := by
        apply newcomers_eq_zero
        intro e he
        have : e.nodeId ∈ g.map LineEntry.nodeId := List.mem_map_of_mem _ he
        rw [hgids] at this
        exact List.take_subset _ _ this
      omega
    · unfold newcomers
      conv_lhs => rw [← List.take_append_drop M gutter]
      rw [List.filter_append, List.length_append]
      have h1 : (gutter.take M).filter
          (fun e => !(decide (e.nodeId ∈ g.map LineEntry.nodeId))) = [] := by
        rw [List.filter_eq_nil.mpr]
        intro e he
        have : e.nodeId ∈ g.map LineEntry.nodeId := by
          rw [hgids, ← List.map_take]
          exact List.mem_map_of_mem _ he
        simp [this]
      have h2 : (gutter.drop M).filter
          (fun e => !(decide (e.nodeId ∈ g.map LineEntry.nodeId))) = gutter.drop M := by
        rw [List.filter_eq_self.mpr]
        intro e he
        have hdisj : List.Disjoint ((gutter.map LineEntry.nodeId).take M)
            ((gutter.map LineEntry.nodeId).drop M) :=
          List.disjoint_take_drop hnodup (le_refl M)
        have hmem : e.nodeId ∈ (gutter.map LineEntry.nodeId).drop M := by
          rw [← List.map_drop]
          exact List.mem_map_of_mem _ he
        have : e.nodeId ∉ g.map LineEntry.nodeId := by
          rw [hgids]
          exact fun hx => hdisj hx hmem
        simp [this]
      rw [h1, h2, List.length_drop]
      simp only [List.length_nil]
      omega
  · -- equal
    rw [if_pos heq]
    simp only
    set g := renumberLoop startLine ws bid M 0 gutter with hg
    have hglen : g.length = M := by
      rw [hg, renumberLoop_length, ← hN, heq]
    have hgids : g.map LineEntry.nodeId = gutter.map LineEntry.nodeId := by
      rw [hg, renumberLoop_map_nodeId]
    refine ⟨hglen, ?_, ?_, ?_⟩
    · rw [List.map_take, List.map_take, hgids]
    · rw [newcomers_eq_zero]
      · omega
      · intro e he
        have : e.nodeId ∈ g.map LineEntry.nodeId := List.mem_map_of_mem _ he
        rw [hgids] at this
        exact this
    · rw [newcomers_eq_zero]
      · omega
      · intro e he
        rw [hgids]
        exact List.mem_map_of_mem _ he
  · -- growth
    rw [if_neg (by omega), if_pos (by omega)]
    simp only
    set newEntries := (List.range (M - N)).map
      (fun j => mkLineEntry (fresh + j) (jsAdd startLine (N + j)) ws bid) with hnew
    have hnids : ∀ e ∈ newEntries, fresh ≤ e.nodeId := by
      intro e he
      rw [hnew] at he
      simp only [List.mem_map, List.mem_range] at he
      obtain ⟨j, _, rfl⟩ := he
      rw [mkLineEntry_nodeId]
      omega
    refine ⟨?_, ?_, ?_, ?_⟩
    · rw [List.length_append, hnew, List.length_map, List.length_range]
      omega
    · have hmin : min N M = N := by omega
      rw [hmin, hN, List.take_left, List.take_length]
    · unfold newcomers
      rw [List.filter_append, List.length_append]
      have h1 : gutter.filter
          (fun e => !(decide (e.nodeId ∈ gutter.map LineEntry.nodeId))) = [] := by
        rw [List.filter_eq_nil.mpr]
        intro e he
        simp [List.mem_map_of_mem LineEntry.nodeId he]
      have h2 : newEntries.filter
          (fun e => !(decide (e.nodeId ∈ gutter.map LineEntry.nodeId))) = newEntries := by
        rw [List.filter_eq_self.mpr]
        intro e he
        have hge : fresh ≤ e.nodeId := hnids e he
        have : e.nodeId ∉ gutter.map LineEntry.nodeId := by
          intro hx
          simp only [List.mem_map] at hx
          obtain ⟨e', he', heq'⟩ := hx
          have := hfresh e' he'
          omega
        simp [this]
      rw [h1, h2, hnew, List.length_map, List.length_range]
      simp
    · rw [newcomers_eq_zero]
      · omega
      · intro e he
        rw [List.map_append]
        exact List.mem_append_left _ (List.mem_map_of_mem _ he)

/-- Witness for C2: growth from a concrete 2-entry gutter to 4 lines. -/
theorem updateLineNumbers_incremental_witness :
    ((updateLineNumbersForLiveUpdates
        [⟨0, some 1, none, none, 0⟩, ⟨1, some 2, none, none, 0⟩] 4 2
        (some 1) false "" 2).1.length = 4) ∧
    (((updateLineNumbersForLiveUpdates
        [⟨0, some 1, none, none, 0⟩, ⟨1, some 2, none, none, 0⟩] 4 2
        (some 1) false "" 2).1.take 2).map LineEntry.nodeId =
      (([⟨0, some 1, none, none, 0⟩, ⟨1, some 2, none, none, 0⟩] :
        List LineEntry).take 2).map LineEntry.nodeId) ∧
    (newcomers (updateLineNumbersForLiveUpdates
        [⟨0, some 1, none, none, 0⟩, ⟨1, some 2, none, none, 0⟩] 4 2
        (some 1) false "" 2).1
      [⟨0, some 1, none, none, 0⟩, ⟨1, some 2, none, none, 0⟩] = 2) ∧
    (newcomers [⟨0, some 1, none, none, 0⟩, ⟨1, some 2, none, none, 0⟩]
      (updateLineNumbersForLiveUpdates
        [⟨0, some 1, none, none, 0⟩, ⟨1, some 2, none, none, 0⟩] 4 2
        (some 1) false "" 2).1 = 0) :=
  updateLineNumbers_incremental
    [⟨0, some 1, none, none, 0⟩, ⟨1, some 2, none, none, 0⟩] 4
    (some 1) false "" 2 (by decide) (by decide)

/-- The head surviving a `dropWhile` fails the predicate. -/
theorem dropWhile_head_false (p : Char → Bool) (l : List Char) (x : Char)
    (h : (l.dropWhile p).head? = some x) : p x = false := by
  induction l with
  | nil => simp [List.dropWhile] at h
  | cons a as ih =>
      by_cases hp : p a
      · rw [List.dropWhile_cons, if_pos hp] at h
        exact ih h
      · rw [List.dropWhile_cons, if_neg hp] at h
        simp only [List.head?_cons, Option.some.injEq] at h
        rw [← h]
        exact Bool.eq_false_iff.mpr hp

/-- `dropWhile` is the identity on a list whose head already fails the
predicate. -/
theorem dropWhile_of_head_false (p : Char → Bool) (l : List Char)
    (h : ∀ x, l.head? = some x → p x = false) : l.dropWhile p = l := by
  cases l with
  | nil => rfl
  | cons a as =>
      rw [List.dropWhile_cons, if_neg]
      rw [h a rfl]
      simp

/-- JS `trim` is idempotent. -/
theorem jsTrim_idem (s : String) : jsTrim (jsTrim s) = jsTrim s := by
  unfold jsTrim
  simp only [String.mk]
  set p := Char.isWhitespace with hp
  set t1 := s.data.dropWhile p with ht1
  set t2 := t1.reverse.dropWhile p with ht2
  have hdec : t1 = t2.reverse ++ (t1.reverse.takeWhile p).reverse := by
    conv_lhs => rw [← List.reverse_reverse t1, ← List.takeWhile_append_dropWhile p t1.reverse]
    rw [List.reverse_append, ht2]
  have hstep1 : t2.reverse.dropWhile p = t2.reverse := by
    apply dropWhile_of_head_false
    intro x hx
    cases hrev : t2.reverse with
    | nil => rw [hrev] at hx; simp at hx
    | cons c rest =>
        rw [hrev] at hx
        simp only [List.head?_cons, Option.some.injEq] at hx
        have ht1head : t1.head? = some c := by
          rw [hdec, hrev]
          rfl
        rw [← hx]
        exact dropWhile_head_false p s.data c ht1head
  rw [hstep1, List.reverse_reverse]
  have hstep2 : t2.dropWhile p = t2 := by
    apply dropWhile_of_head_false
    intro x hx
    exact dropWhile_head_false p t1.reverse x hx
  rw [hstep2]

/-- The live-update gutter diff always lands on the new line count when the
old count is the gutter's actual length. -/
theorem updateLineNumbers_length (gutter : List LineEntry) (M : Nat)
    (st : Option Int) (ws : Bool) (bid : String) (fresh : Nat) :
    (updateLineNumbersForLiveUpdates gutter M gutter.length st ws bid fresh).1.length
      = M := by
  unfold updateLineNumbersForLiveUpdates
  rcases Nat.lt_trichotomy M gutter.length with hlt | heq | hgt
  · rw [if_neg (by omega), if_neg (by omega)]
    simp only
    rw [renumberLoop_length, List.length_append, List.drop_length, List.length_take]
    simp
    omega
  · rw [if_pos heq]
    simp only
    rw [renumberLoop_length]
    omega
  · rw [if_neg (by omega), if_pos (by omega)]
    simp only [List.length_append, List.length_map, List.length_range]
    omega

/-- The synchronous gutter pass lands on the current line count of the code. -/
theorem gutterBlock_gutter_length (s : BlockState) (code : String)
    (h : s.withLines = true) :
    (gutterBlock s code).gutter.length = (jsSplitNewline code).length := by
  unfold gutterBlock
  rw [if_pos h]
  exact updateLineNumbers_length _ _ _ _ _ _

/-- The synchronous gutter pass only writes the gutter and the fresh-node
counter. -/
theorem gutterBlock_withLines (s : BlockState) (code : String) :
    (gutterBlock s code).withLines = s.withLines := by
  unfold gutterBlock
  split <;> rfl

/-- The gutter step keeps the line-number mode flag. -/
theorem ucbGutter_withLines (s : BlockState) (c : String) :
    (ucbGutter s c).withLines = s.withLines := by
  unfold ucbGutter
  split <;> rfl

/-- The share step keeps the line-number mode flag and the gutter. -/
theorem ucbShare_frame (hash : String → String) (s : BlockState) (c : String) :
    (ucbShare hash s c).withLines = s.withLines ∧
    (ucbShare hash s c).gutter = s.gutter := by
  unfold ucbShare
  simp only []
  repeat' split
  all_goals exact ⟨rfl, rfl⟩

/-- The floating-button step keeps the line-number mode flag and the gutter. -/
theorem ucbFloating_frame (hash : String → String) (s : BlockState) (c : String) :
    (ucbFloating hash s c).withLines = s.withLines ∧
    (ucbFloating hash s c).gutter = s.gutter := by
  unfold ucbFloating
  simp only []
  repeat' split
  all_goals exact ⟨rfl, rfl⟩

/-- The header-label step keeps the line-number mode flag and the gutter. -/
theorem ucbLabel_frame (s : BlockState) (sl : Bool) (language displayLabel : Option String) :
    (ucbLabel s sl language displayLabel).withLines = s.withLines ∧
    (ucbLabel s sl language displayLabel).gutter = s.gutter := by
  unfold ucbLabel setHeaderLanguage
  repeat' split
  all_goals exact ⟨rfl, rfl⟩

/-- Because the compound selector doubles the old count, the gutter step of
`updateCodeBlock` does not repair an arbitrary gutter; but a gutter that is
already at the target line count stays there: with `L` lines against a
reported old count of `2L`, the shrink branch removes only the non-existent
indices `[L, 2L)` and the renumber pass keeps the length (for `L = 0` the
counts tie and only the renumber pass runs). -/
theorem ucbGutter_length_at_target (s : BlockState) (c : String)
    (h : s.gutter.length = (jsSplitNewline c).length) :
    (ucbGutter s c).gutter.length = (jsSplitNewline c).length := by
  unfold ucbGutter
  split
  · simp only []
    unfold updateCodeBlockGutter
    rcases Nat.eq_zero_or_pos (jsSplitNewline c).length with hz | hpos
    · rw [if_neg (by omega), if_neg (by omega)]
      simp only
      rw [renumberLoop_length]
      omega
    · rw [if_neg (by omega), if_pos (by omega)]
      simp only
      rw [renumberLoop_length, List.length_append, List.length_take,
        List.length_drop]
      omega
  · exact h

/-- `updateCodeBlock` never changes the line-number mode flag. -/
theorem updateCodeBlock_withLines (engine : Engine) (hash : String → String)
    (s : BlockState) (lof : Option String) (code : String) (sl : Bool) :
    (updateCodeBlock engine hash s lof code sl).withLines = s.withLines := by
  unfold updateCodeBlock
  rw [(ucbLabel_frame _ _ _ _).1, (ucbFloating_frame _ _ _).1, (ucbShare_frame _ _ _).1]
  rw [show ∀ t c, (ucbDownload t c).withLines = t.withLines from fun _ _ => rfl]
  rw [show ∀ t c, (ucbCopy t c).withLines = t.withLines from fun _ _ => rfl]
  rw [ucbGutter_withLines]
  rfl

/-- `updateCodeBlock` keeps a gutter that already matches the cleaned code's
line count at that count (its own diff step cannot repair an arbitrary
gutter — see `ucbGutter_length_at_target` — and no later step touches the
gutter). -/
theorem updateCodeBlock_gutter (engine : Engine) (hash : String → String)
    (s : BlockState) (lof : Option String) (code : String) (sl : Bool)
    (h : s.gutter.length = (jsSplitNewline (jsTrim code)).length) :
    (updateCodeBlock engine hash s lof code sl).gutter.length =
      (jsSplitNewline (jsTrim code)).length := by
  unfold updateCodeBlock
  rw [(ucbLabel_frame _ _ _ _).2, (ucbFloating_frame _ _ _).2, (ucbShare_frame _ _ _).2]
  rw [show ∀ t c, (ucbDownload t c).gutter = t.gutter from fun _ _ => rfl]
  rw [show ∀ t c, (ucbCopy t c).gutter = t.gutter from fun _ _ => rfl]
  exact ucbGutter_length_at_target _ _ h

/-- The non-share update body never changes the line-number mode flag. -/
theorem rehighlightNonShare_withLines (engine : Engine) (hash : String → String)
    (s : BlockState) (code : String) :
    (rehighlightNonShare engine hash s code).withLines = s.withLines := by
  unfold rehighlightNonShare setHeaderLanguage
  simp only []
  repeat' split
  all_goals first
    | rfl
    | (rw [show ∀ (t : BlockState) c, ({ t with codeClasses := c } : BlockState).withLines
          = t.withLines from fun _ _ => rfl, updateCodeBlock_withLines])

/-- After a reconciliation pass that processes a non-empty changed snapshot on
a line-numbered block, the gutter count equals the snapshot's line count. -/
theorem rehighlight_gutter_count (engine : Engine) (hash : String → String)
    (doc : DocState) (s : BlockState) (hl : s.withLines = true)
    (hne : jsTrim s.mirrorText ≠ "")
    (hch : jsTrim s.mirrorText ≠ s.lastProcessedCode) :
    (rehighlight engine hash doc s).gutter.length =
      (jsSplitNewline (jsTrim s.mirrorText)).length := by
  unfold rehighlight
  rw [if_neg hne, if_neg hch]
  simp only []
  by_cases hsh :
      ({ s with lastProcessedCode := jsTrim s.mirrorText } : BlockState).withShare = true
  · rw [if_pos hsh]
    rw [updateCodeBlock_gutter _ _ _ _ _ _ ?_, jsTrim_idem]
    rw [show ∀ (t : BlockState) c, ({ t with containerId := c } : BlockState).gutter
        = t.gutter from fun _ _ => rfl]
    rw [jsTrim_idem]
    exact gutterBlock_gutter_length _ _ hl
  · rw [if_neg hsh]
    rw [gutterBlock_gutter_length]
    rw [rehighlightNonShare_withLines]
    exact hl

/-- C4 counterexample: a live two-line block whose raw text becomes empty —
the reconciliation pass skips (src/index.js:842 `if (!code) return`), the
gutter keeps its 2 entries, while the trimmed raw text has 1 newline-delimited
line, so the claimed invariant fails at that instant. -/
theorem gutter_stale_on_empty_text :
    (rehighlight ⟨fun _ _ => .error "", fun _ _ => .error ""⟩ (fun _ => "")
      ⟨fun _ => false⟩
      { mirrorText := "", lastProcessedCode := "a\nb", innerHTML := "x",
        codeClasses := [], headerPresent := true, headerLanguage := none,
        liveLanguage := none, detectedLanguage := none, autoDetect := true,
        showLanguage := true, withShare := false, withShareAttr := false,
        withDownloadAttr := false, withLines := true, noHeader := false,
        elementLineStart := none, preLineStart := none,
        containerLineStart := none, datasetLanguage := none,
        containerOriginalId := none, containerId := "", containerFilename := none,
        gutter := [⟨0, some 1, none, none, 0⟩, ⟨1, some 2, none, none, 0⟩],
        fresh := 2, copyBtn := none, downloadBtn := none,
        shareBtn := none }).gutter.length = 2 ∧
    (jsSplitNewline (jsTrim "")).length = 1 ∧ (2 : Nat) ≠ 1 := by
  refine ⟨?_, by decide, by decide⟩
  decide

/-- C4 (amended): for every block with line numbers enabled the gutter entry
count equals the number of newline-delimited lines of the trimmed raw text
after initial construction, and after every reconciliation pass that
processes a non-empty snapshot differing from the last one; a pass whose
trimmed raw text is empty is skipped and leaves the gutter untouched. -/
theorem gutter_count_invariant (code : String) (els pls : Option String)
    (ws : Bool) (bid : String) (f : Nat) (engine : Engine)
    (hash : String → String) (doc : DocState) (s : BlockState) :
    ((addLineNumbers code els pls ws bid f).1.length =
      (jsSplitNewline (jsTrim code)).length) ∧
    (s.withLines = true → jsTrim s.mirrorText ≠ "" →
      jsTrim s.mirrorText ≠ s.lastProcessedCode →
      (rehighlight engine hash doc s).gutter.length =
        (jsSplitNewline (jsTrim s.mirrorText)).length) ∧
    (jsTrim s.mirrorText = "" → rehighlight engine hash doc s = s) := by
  refine ⟨?_, ?_, ?_⟩
  · unfold addLineNumbers
    simp
  · exact rehighlight_gutter_count engine hash doc s
  · intro h
    unfold rehighlight
    rw [if_pos h]

/-- Witness for C4's amended statement: construction on three lines, and a
reconciliation pass from snapshot `"a"` to three lines. -/
theorem gutter_count_invariant_witness :
    ((addLineNumbers "x\ny\nz" (some "1") none false "" 0).1.length =
      (jsSplitNewline (jsTrim "x\ny\nz")).length) ∧
    ((rehighlight ⟨fun _ _ => .error "", fun _ _ => .error ""⟩ (fun _ => "")
      ⟨fun _ => false⟩
      { mirrorText := "x\ny\nz", lastProcessedCode := "a", innerHTML := "x",
        codeClasses := [], headerPresent := true, headerLanguage := none,
        liveLanguage := none, detectedLanguage := none, autoDetect := false,
        showLanguage := true, withShare := false, withShareAttr := false,
        withDownloadAttr := false, withLines := true, noHeader := false,
        elementLineStart := none, preLineStart := none,
        containerLineStart := none, datasetLanguage := none,
        containerOriginalId := none, containerId := "", containerFilename := none,
        gutter := [⟨0, some 1, none, none, 0⟩],
        fresh := 1, copyBtn := none, downloadBtn := none,
        shareBtn := none }).gutter.length =
      (jsSplitNewline (jsTrim "x\ny\nz")).length) :=
  ⟨(gutter_count_invariant "x\ny\nz" (some "1") none false "" 0
      ⟨fun _ _ => .error "", fun _ _ => .error ""⟩ (fun _ => "") ⟨fun _ => false⟩
      { mirrorText := "x\ny\nz", lastProcessedCode := "a", innerHTML := "x",
        codeClasses := [], headerPresent := true, headerLanguage := none,
        liveLanguage := none, detectedLanguage := none, autoDetect := false,
        showLanguage := true, withShare := false, withShareAttr := false,
        withDownloadAttr := false, withLines := true, noHeader := false,
        elementLineStart := none, preLineStart := none,
        containerLineStart := none, datasetLanguage := none,
        containerOriginalId := none, containerId := "", containerFilename := none,
        gutter := [⟨0, some 1, none, none, 0⟩],
        fresh := 1, copyBtn := none, downloadBtn := none,
        shareBtn := none }).1,
   (gutter_count_invariant "x\ny\nz" (some "1") none false "" 0
      ⟨fun _ _ => .error "", fun _ _ => .error ""⟩ (fun _ => "") ⟨fun _ => false⟩
      { mirrorText := "x\ny\nz", lastProcessedCode := "a", innerHTML := "x",
        codeClasses := [], headerPresent := true, headerLanguage := none,
        liveLanguage := none, detectedLanguage := none, autoDetect := false,
        showLanguage := true, withShare := false, withShareAttr := false,
        withDownloadAttr := false, withLines := true, noHeader := false,
        elementLineStart := none, preLineStart := none,
        containerLineStart := none, datasetLanguage := none,
        containerOriginalId := none, containerId := "", containerFilename := none,
        gutter := [⟨0, some 1, none, none, 0⟩],
        fresh := 1, copyBtn := none, downloadBtn := none,
        shareBtn := none }).2.1 (by decide) (by decide) (by decide)⟩

end HighlightIt
